import Mathlib

/-!
Shallow embedding of the typed response layer of the pytumblr fork
(src/pytumblr/types.py, src/pytumblr/npf.py, src/pytumblr/request.py).

Raw JSON payloads are modelled by `RawValue`; a Python keyword-argument
dict is a `RawMap`.  Python exceptions raised while decoding (`KeyError`
from a dict lookup, `TypeError` from a bad constructor call) are modelled
as `Except.error` results.

The polymorphic families (`Post`, `ContentBlock`, `ContentFormat`,
`Attribution`, `LayoutBlock`) dispatch in an overridden `__new__`: the
body inspects the keyword arguments and then calls a concrete class
constructor.  Each such concrete class inherits the very same `__new__`,
and the body calls it with the keyword arguments unchanged, so the
dispatch re-enters itself.  We model this in two layers:

* a `...NewStep` function gives the selection the body makes on one
  entry (which constructor is invoked, or which exception is raised);
* a `...NewFuel` function iterates the step exactly as the source does,
  with explicit fuel; the success type is `Empty` because no path in the
  source returns an allocated object (every non-raising path recurses).
-/

namespace Pytumblr

/-- A parsed JSON value: the loosely-typed structure that Python builds
from a wire response (strings, ints, booleans, None, lists, dicts). -/
inductive RawValue where
  | str : String → RawValue
  | int : Int → RawValue
  | bool : Bool → RawValue
  | null : RawValue
  | list : List RawValue → RawValue
  | map : List (String × RawValue) → RawValue

/-- A raw mapping: a Python dict of keyword arguments, key to value. -/
abbrev RawMap := List (String × RawValue)

/-- First-match key lookup in a raw mapping (Python dict indexing,
minus the raised KeyError, which callers add). -/
def rawLookup : RawMap → String → Option RawValue
  | [], _ => none
  | (k, v) :: rest, key => if k = key then some v else rawLookup rest key

/-- Key presence test: Python `k in kwargs`. -/
def hasKey (kw : RawMap) (k : String) : Bool :=
  (rawLookup kw k).isSome

/-- Errors raised while decoding: `keyError v` models Python
`KeyError(v)` from a failed dict lookup, `typeError` models `TypeError`
(bad constructor arguments, unhashable key, non-mapping splat). -/
inductive DecodeErr where
  | keyError : RawValue → DecodeErr
  | typeError : DecodeErr

/-- The concrete classes of the `Post` family (types.py).  The tags name
the classes declared in the source; `legacyTextPost` and `submission`
exist as classes but, as proved below, are absent from `POST_CLASSES`. -/
inductive PostClass where
  | dashboardPost | legacyPhotoPost | legacyQuotePost | legacyLinkPost
  | legacyChatPost | legacyAudioPost | legacyVideoPost | legacyAnswerPost
  | legacyTextPost | submission
  deriving DecidableEq

/-- The `POST_CLASSES` dict of types.py lines 271 to 279, verbatim: the
seven entries photo, quote, link, chat, audio, video, answer.  There is
no `text` entry. -/
def POST_CLASSES : String → Option PostClass
  | "photo" => some PostClass.legacyPhotoPost
  | "quote" => some PostClass.legacyQuotePost
  | "link" => some PostClass.legacyLinkPost
  | "chat" => some PostClass.legacyChatPost
  | "audio" => some PostClass.legacyAudioPost
  | "video" => some PostClass.legacyVideoPost
  | "answer" => some PostClass.legacyAnswerPost
  | _ => none

/-- One entry of `Post.__new__` (types.py lines 118 to 122): if
`blog_name` is among the keyword arguments and `blog` is not, the body
invokes `DashboardPost(*args, **kwargs)`; otherwise it invokes
`POST_CLASSES[kwargs['type']](*args, **kwargs)`, raising KeyError when
the `type` key is missing or its value is not a table key, and
TypeError when the value is unhashable (a list or a dict).  The invoked
constructor inherits this same `__new__` and receives the keyword
arguments unchanged; `postNewFuel` iterates that re-entry. -/
def postNewStep (kw : RawMap) : Except DecodeErr PostClass :=
  if hasKey kw "blog_name" && !(hasKey kw "blog") then
    Except.ok PostClass.dashboardPost
  else
    match rawLookup kw "type" with
    | none => Except.error (DecodeErr.keyError (RawValue.str "type"))
    | some (RawValue.str s) =>
      match POST_CLASSES s with
      | some c => Except.ok c
      | none => Except.error (DecodeErr.keyError (RawValue.str s))
    | some (RawValue.list _) => Except.error DecodeErr.typeError
    | some (RawValue.map _) => Except.error DecodeErr.typeError
    | some t => Except.error (DecodeErr.keyError t)

/-- Full behaviour of a `Post` family constructor call with the given
keyword arguments and a fuel bound on the call depth: `none` means the
bound was reached with no result, `some` an exception propagated out.
The success type is `Empty`: no path in the source body returns an
object, every non-raising branch calls a constructor that re-enters the
same inherited `__new__` on the same keyword arguments. -/
def postNewFuel : Nat → RawMap → Option (Except DecodeErr Empty)
  | 0, _ => none
  | Nat.succ n, kw =>
    match postNewStep kw with
    | Except.error e => some (Except.error e)
    | Except.ok _ => postNewFuel n kw

/-- The concrete classes of the `ContentBlock` family (npf.py). -/
inductive ContentClass where
  | textBlock | imageBlock | linkBlock | mediaBlock | audioBlock | videoBlock
  deriving DecidableEq

/-- The `CONTENT_CLASSES` dict of npf.py lines 215 to 221: video, audio,
media, text, link.  `ImageBlock` is deliberately not an entry; it is the
fallback in `ContentBlock.__new__`. -/
def CONTENT_CLASSES : String → Option ContentClass
  | "video" => some ContentClass.videoBlock
  | "audio" => some ContentClass.audioBlock
  | "media" => some ContentClass.mediaBlock
  | "text" => some ContentClass.textBlock
  | "link" => some ContentClass.linkBlock
  | _ => none

/-- One entry of `ContentBlock.__new__` (npf.py lines 84 to 90): if
`kwargs['type']` is a key of `CONTENT_CLASSES` the body invokes that
class, otherwise it invokes `ImageBlock` (the comment in the source:
type is a generic mime type).  A missing `type` key raises KeyError, an
unhashable value raises TypeError from the membership test.  The
invoked class inherits this same `__new__`; `contentNewFuel` iterates
the re-entry. -/
def contentNewStep (kw : RawMap) : Except DecodeErr ContentClass :=
  match rawLookup kw "type" with
  | none => Except.error (DecodeErr.keyError (RawValue.str "type"))
  | some (RawValue.str s) =>
    match CONTENT_CLASSES s with
    | some c => Except.ok c
    | none => Except.ok ContentClass.imageBlock
  | some (RawValue.list _) => Except.error DecodeErr.typeError
  | some (RawValue.map _) => Except.error DecodeErr.typeError
  | some _ => Except.ok ContentClass.imageBlock

/-- Full behaviour of a `ContentBlock` family constructor call, fuelled
as in `postNewFuel`: every non-raising branch of the body re-enters the
same `__new__` on the same keyword arguments. -/
def contentNewFuel : Nat → RawMap → Option (Except DecodeErr Empty)
  | 0, _ => none
  | Nat.succ n, kw =>
    match contentNewStep kw with
    | Except.error e => some (Except.error e)
    | Except.ok _ => contentNewFuel n kw

/-- The concrete classes of the `ContentFormat` family (npf.py).
`mentionFormat` is declared in the source but, as proved below, is
absent from `FORMAT_CLASSES`. -/
inductive FormatClass where
  | contentFormat | linkFormat | mentionFormat | colorFormat
  deriving DecidableEq

/-- The `FORMAT_CLASSES` dict of npf.py lines 77 to 81, verbatim: color,
link, content.  There is no `mention` entry. -/
def FORMAT_CLASSES : String → Option FormatClass
  | "color" => some FormatClass.colorFormat
  | "link" => some FormatClass.linkFormat
  | "content" => some FormatClass.contentFormat
  | _ => none

/-- One entry of `ContentFormat.__new__` (npf.py lines 52 to 56): when a
`type` key is present the body invokes `FORMAT_CLASSES[kwargs['type']]`
(KeyError on an unmapped value), and when it is absent the body invokes
`ContentFormat(*args, **kwargs)` itself.  Either invoked class inherits
this same `__new__` on unchanged keyword arguments. -/
def formatNewStep (kw : RawMap) : Except DecodeErr FormatClass :=
  match rawLookup kw "type" with
  | none => Except.ok FormatClass.contentFormat
  | some (RawValue.str s) =>
    match FORMAT_CLASSES s with
    | some c => Except.ok c
    | none => Except.error (DecodeErr.keyError (RawValue.str s))
  | some (RawValue.list _) => Except.error DecodeErr.typeError
  | some (RawValue.map _) => Except.error DecodeErr.typeError
  | some t => Except.error (DecodeErr.keyError t)

/-- The concrete classes of the `Attribution` family (npf.py). -/
inductive AttributionClass where
  | linkAttribution | blogAttribution | appAttribution | postAttribution
  deriving DecidableEq

/-- The `ATTRIBUTION_CLASSES` dict of npf.py lines 147 to 152: link,
blog, app, post.  No fallback entry exists. -/
def ATTRIBUTION_CLASSES : String → Option AttributionClass
  | "link" => some AttributionClass.linkAttribution
  | "blog" => some AttributionClass.blogAttribution
  | "app" => some AttributionClass.appAttribution
  | "post" => some AttributionClass.postAttribution
  | _ => none

/-- One entry of `Attribution.__new__` (npf.py lines 107 to 109): the
body invokes `ATTRIBUTION_CLASSES[kwargs['type']]` directly, so a
missing `type` key or an unmapped value raises KeyError; there is no
fallback branch. -/
def attributionNewStep (kw : RawMap) : Except DecodeErr AttributionClass :=
  match rawLookup kw "type" with
  | none => Except.error (DecodeErr.keyError (RawValue.str "type"))
  | some (RawValue.str s) =>
    match ATTRIBUTION_CLASSES s with
    | some c => Except.ok c
    | none => Except.error (DecodeErr.keyError (RawValue.str s))
  | some (RawValue.list _) => Except.error DecodeErr.typeError
  | some (RawValue.map _) => Except.error DecodeErr.typeError
  | some t => Except.error (DecodeErr.keyError t)

/-- The concrete classes of the `LayoutBlock` family (npf.py). -/
inductive LayoutClass where
  | rowsLayout | condensedLayout | askLayout
  deriving DecidableEq

/-- The `LAYOUT_CLASSES` dict of npf.py lines 265 to 269: rows,
condensed, ask.  No fallback entry exists. -/
def LAYOUT_CLASSES : String → Option LayoutClass
  | "rows" => some LayoutClass.rowsLayout
  | "condensed" => some LayoutClass.condensedLayout
  | "ask" => some LayoutClass.askLayout
  | _ => none

/-- One entry of `LayoutBlock.__new__` (npf.py lines 224 to 226): the
body invokes `LAYOUT_CLASSES[kwargs['type']]` directly, so a missing
`type` key or an unmapped value raises KeyError; no fallback branch. -/
def layoutNewStep (kw : RawMap) : Except DecodeErr LayoutClass :=
  match rawLookup kw "type" with
  | none => Except.error (DecodeErr.keyError (RawValue.str "type"))
  | some (RawValue.str s) =>
    match LAYOUT_CLASSES s with
    | some c => Except.ok c
    | none => Except.error (DecodeErr.keyError (RawValue.str s))
  | some (RawValue.list _) => Except.error DecodeErr.typeError
  | some (RawValue.map _) => Except.error DecodeErr.typeError
  | some t => Except.error (DecodeErr.keyError t)

/-- The `BlogInfo` dataclass of types.py lines 58 to 64 together with its
base `BaseBlog` (lines 45 to 50), with fields at their annotated types. -/
structure BlogInfo where
  name : String
  updated : Int
  title : String
  description : String
  posts : Int
  ask : Bool
  ask_anon : Bool
  likes : Int
  is_blocked_from_primary : Bool
  deriving DecidableEq

/-- The field record of the `LegacyQuotePost` dataclass of types.py
lines 199 to 203: the `Post` base fields (lines 96 to 116, with `date`
kept at its pre-parse string form and `blog` decoded to `BlogInfo` by
`Post.__post_init__`) followed by the two subclass fields `text` and
`source`.  Fields carry their annotated types. -/
structure LegacyQuotePost where
  id : Int
  type : String
  blog_name : String
  post_url : String
  timestamp : Int
  date : String
  format : String
  reblog_key : String
  tags : List String
  total_posts : Int
  blog : Option BlogInfo
  bookmarks : Option Bool
  mobile : Option Bool
  source_url : Option String
  source_title : Option String
  liked : Option Bool
  state : Option String
  is_blocks_post_format : Option Bool
  text : Option String
  source : Option String
  deriving DecidableEq

/-- The hand-written `Post.__eq__` of types.py lines 124 to 125: two
posts compare equal exactly when their `id` fields are equal. -/
def postEq (a b : LegacyQuotePost) : Bool :=
  a.id == b.id

/-- The hand-written `Post.__hash__` of types.py lines 127 to 128:
`hash(self.id)` (the Python hash of a small int is the int itself). -/
def postHash (a : LegacyQuotePost) : Int :=
  a.id

/-- The `__eq__` that `@dataclass` (with its defaults `eq=True`,
`frozen=False`) generates in the class dict of `LegacyQuotePost`
(types.py line 199): the own class dict of the subclass has no `__eq__`,
so the decorator adds one that compares the tuple of all dataclass
fields in declaration order, shadowing the inherited `Post.__eq__`.
(Contrast `PostInfo` in npf.py line 26, declared `@dataclass(eq=False)`
precisely so that the inherited id-based methods survive.) -/
def legacyQuotePostEq (a b : LegacyQuotePost) : Bool :=
  a.id == b.id && a.type == b.type && a.blog_name == b.blog_name &&
  a.post_url == b.post_url && a.timestamp == b.timestamp &&
  a.date == b.date && a.format == b.format &&
  a.reblog_key == b.reblog_key && a.tags == b.tags &&
  a.total_posts == b.total_posts && a.blog == b.blog &&
  a.bookmarks == b.bookmarks && a.mobile == b.mobile &&
  a.source_url == b.source_url && a.source_title == b.source_title &&
  a.liked == b.liked && a.state == b.state &&
  a.is_blocks_post_format == b.is_blocks_post_format &&
  a.text == b.text && a.source == b.source

/-- The `__hash__` slot that `@dataclass` (defaults `eq=True`,
`frozen=False`, `unsafe_hash=False`) leaves on `LegacyQuotePost`: the
decorator sets it to `None`, so instances are unhashable and `hash(x)`
raises TypeError.  Modelled as the absence of a hash function. -/
def legacyQuotePostHash : Option (LegacyQuotePost → Int) :=
  none

/-- Membership of every key of a keyword mapping in the accepted
parameter list of a dataclass `__init__`; a call with an unexpected
keyword raises TypeError. -/
def keysAllowed (kw : RawMap) (allowed : List String) : Bool :=
  kw.all (fun p => allowed.contains p.1)

/-- The decoded form of the `Avatar` dataclass (types.py lines 90 to
92).  Dataclass fields are stored without coercion, so the field holds
the raw value passed for it. -/
structure Avatar where
  avatar_url : RawValue

/-- The `Avatar(**kw)` constructor call: the generated `__init__` binds
the single parameter `avatar_url`, raising TypeError when it is missing
or when an unexpected keyword is passed. -/
def avatarInit (kw : RawMap) : Except DecodeErr Avatar :=
  if keysAllowed kw ["avatar_url"] then
    match rawLookup kw "avatar_url" with
    | some v => Except.ok ⟨v⟩
    | none => Except.error DecodeErr.typeError
  else Except.error DecodeErr.typeError

/-- The decoded form of the `BrokenBlog` dataclass (npf.py lines 272 to
278): a raw `name` field and an `avatar` field that `__post_init__`
replaces by `Avatar(**self.avatar)`. -/
structure BrokenBlog where
  name : RawValue
  avatar : Avatar

/-- The `BrokenBlog(**kw)` constructor call: `__init__` binds `name` and
`avatar` (TypeError when missing or unexpected), then `__post_init__`
runs `self.avatar = types.Avatar(**self.avatar)` (TypeError when the
passed avatar value is not a mapping). -/
def brokenBlogInit (kw : RawMap) : Except DecodeErr BrokenBlog :=
  if keysAllowed kw ["name", "avatar"] then
    match rawLookup kw "name" with
    | none => Except.error DecodeErr.typeError
    | some nm =>
      match rawLookup kw "avatar" with
      | some (RawValue.map akw) =>
        match avatarInit akw with
        | Except.ok av => Except.ok ⟨nm, av⟩
        | Except.error e => Except.error e
      | some _ => Except.error DecodeErr.typeError
      | none => Except.error DecodeErr.typeError
  else Except.error DecodeErr.typeError

/-- The decoded form of the `ImageSize` dataclass (types.py lines 158
to 162): three required fields, no `__post_init__`, values stored
without coercion. -/
structure ImageSize where
  width : RawValue
  height : RawValue
  url : RawValue

/-- The `ImageSize(**kw)` constructor call: the generated `__init__`
binds `width`, `height` and `url`, raising TypeError when one is
missing or an unexpected keyword is passed. -/
def imageSizeInit (kw : RawMap) : Except DecodeErr ImageSize :=
  if keysAllowed kw ["width", "height", "url"] then
    match rawLookup kw "width" with
    | none => Except.error DecodeErr.typeError
    | some w =>
      match rawLookup kw "height" with
      | none => Except.error DecodeErr.typeError
      | some h =>
        match rawLookup kw "url" with
        | none => Except.error DecodeErr.typeError
        | some u => Except.ok ⟨w, h, u⟩
  else Except.error DecodeErr.typeError

/-- The decoded form of the `VerbosePhoto` dataclass (types.py lines
174 to 182), a subclass of `Photo` (lines 165 to 171) with no custom
`__new__` anywhere in its bases, hence directly constructible.  Its own
`__post_init__` replaces `original_size` by
`ImageSize(**self.original_size)` but overrides the `Photo`
`__post_init__` without invoking it, so the `alt_sizes` value — which
the `Photo` version would have decoded into `ImageSize` values — is
stored exactly as passed, raw. -/
structure VerbosePhoto where
  caption : RawValue
  alt_sizes : RawValue
  original_size : ImageSize
  width : RawValue
  height : RawValue
  url : RawValue

/-- The `VerbosePhoto(**kw)` constructor call: the generated `__init__`
binds the six parameters `caption`, `alt_sizes`, `original_size`,
`width`, `height`, `url` (TypeError when one is missing or an
unexpected keyword is passed), then the `VerbosePhoto` `__post_init__`
runs `self.original_size = ImageSize(**self.original_size)` (TypeError
when that value is not a mapping); only it runs, so `alt_sizes` stays
raw. -/
def verbosePhotoInit (kw : RawMap) : Except DecodeErr VerbosePhoto :=
  if keysAllowed kw ["caption", "alt_sizes", "original_size", "width", "height", "url"] then
    match rawLookup kw "caption" with
    | none => Except.error DecodeErr.typeError
    | some cap =>
      match rawLookup kw "alt_sizes" with
      | none => Except.error DecodeErr.typeError
      | some alts =>
        match rawLookup kw "original_size" with
        | none => Except.error DecodeErr.typeError
        | some osr =>
          match rawLookup kw "width" with
          | none => Except.error DecodeErr.typeError
          | some w =>
            match rawLookup kw "height" with
            | none => Except.error DecodeErr.typeError
            | some h =>
              match rawLookup kw "url" with
              | none => Except.error DecodeErr.typeError
              | some u =>
                match osr with
                | RawValue.map okw =>
                  match imageSizeInit okw with
                  | Except.ok osz => Except.ok ⟨cap, alts, osz, w, h, u⟩
                  | Except.error e => Except.error e
                | _ => Except.error DecodeErr.typeError
  else Except.error DecodeErr.typeError

/-- Test for a raw mapping (a surviving undecoded dict). -/
def isRawMapping : RawValue → Bool
  | RawValue.map _ => true
  | _ => false

/-- Test whether a raw value is a list holding at least one raw
mapping. -/
def listHasRawMapping : RawValue → Bool
  | RawValue.list vs => vs.any isRawMapping
  | _ => false

/-- The `Reason` dataclass of request.py lines 10 to 13. -/
structure Reason where
  title : RawValue
  code : RawValue

/-- The `TumblrError` dataclass of request.py lines 15 to 24: status,
msg, an optional response dict (default None) and an optional errors
list (default None). -/
structure TumblrError where
  status : RawValue
  msg : RawValue
  response : Option RawValue
  errors : Option (List Reason)

/-- The `TumblrResponse` union of request.py line 27: either the plain
response dict or a `TumblrError`. -/
inductive TumblrResponse where
  | success : RawValue → TumblrResponse
  | failure : TumblrError → TumblrResponse

/-- Python subscripting `v[k]`: KeyError when the key is absent,
TypeError when the value is not a mapping. -/
def getItem (v : RawValue) (k : String) : Except DecodeErr RawValue :=
  match v with
  | RawValue.map m =>
    match rawLookup m k with
    | some x => Except.ok x
    | none => Except.error (DecodeErr.keyError (RawValue.str k))
  | _ => Except.error DecodeErr.typeError

/-- The substitute payload that `json_parse` builds when
`response.json()` raises ValueError (request.py lines 118 to 120). -/
def malformedData : RawValue :=
  RawValue.map
    [("meta", RawValue.map
        [("status", RawValue.int 500), ("msg", RawValue.str "Server Error")]),
     ("response", RawValue.map
        [("error", RawValue.str "Malformed JSON or HTML was returned.")])]

/-- The comparison `data['meta']['status'] == 200` on a raw value. -/
def isStatus200 : RawValue → Bool
  | RawValue.int 200 => true
  | _ => false

/-- The `TumblrRequest.json_parse` method (request.py lines 107 to 129).
The argument models the outcome of `response.json()`: `some data` when
the body parsed, `none` when ValueError was raised, in which case the
hard-coded substitute payload is used.  Status 200 returns the raw
`data['response']`; any other status returns
`TumblrError(data['meta']['status'], data['meta']['msg'],
data['response'])`, whose `errors` field keeps its None default. -/
def jsonParse (parsed : Option RawValue) : Except DecodeErr TumblrResponse :=
  let data := match parsed with
    | some d => d
    | none => malformedData
  match getItem data "meta" with
  | Except.error e => Except.error e
  | Except.ok meta =>
    match getItem meta "status" with
    | Except.error e => Except.error e
    | Except.ok st =>
      if isStatus200 st then
        match getItem data "response" with
        | Except.error e => Except.error e
        | Except.ok r => Except.ok (TumblrResponse.success r)
      else
        match getItem meta "msg" with
        | Except.error e => Except.error e
        | Except.ok m =>
          match getItem data "response" with
          | Except.error e => Except.error e
          | Except.ok r =>
            Except.ok (TumblrResponse.failure ⟨st, m, some r, none⟩)

/-- Keyword arguments of the end-to-end quote example of the spec,
abridged to the keys the dispatch inspects: `type` is quote, `blog` is
present, so `Post.__new__` selects `LegacyQuotePost` and re-enters. -/
def c3QuoteKw : RawMap :=
  [("id", RawValue.int 42), ("type", RawValue.str "quote"),
   ("blog_name", RawValue.str "x"),
   ("blog", RawValue.map [("name", RawValue.str "x")])]

/-- Keyword arguments of a minimal text content block: `type` is a
`CONTENT_CLASSES` key, so `ContentBlock.__new__` selects `TextBlock`
and re-enters. -/
def c3TextBlockKw : RawMap :=
  [("type", RawValue.str "text"), ("text", RawValue.str "hi")]

/-- A decoded quote post with id 42. -/
def c6QuoteA : LegacyQuotePost :=
  { id := 42, type := "quote", blog_name := "x", post_url := "u",
    timestamp := 10, date := "2020-01-01 00:00:00 UTC", format := "html",
    reblog_key := "abc", tags := [], total_posts := 1, blog := none,
    bookmarks := none, mobile := none, source_url := none,
    source_title := none, liked := none, state := some "published",
    is_blocks_post_format := none, text := some "hi", source := none }

/-- A decoded quote post with the same id 42 but different tags, state
and text. -/
def c6QuoteB : LegacyQuotePost :=
  { c6QuoteA with tags := ["t"], state := some "queued", text := some "bye" }

/-- A raw `alt_sizes` value for VerbosePhoto: a list holding one raw
mapping, as the endpoint delivers it. -/
def c7AltSizesRaw : RawValue :=
  RawValue.list
    [RawValue.map [("width", RawValue.int 75), ("height", RawValue.int 75),
                   ("url", RawValue.str "s")]]

/-- Keyword arguments of a complete VerbosePhoto raw mapping. -/
def c7PhotoKw : RawMap :=
  [("caption", RawValue.str "c"), ("alt_sizes", c7AltSizesRaw),
   ("original_size", RawValue.map
      [("width", RawValue.int 500), ("height", RawValue.int 400),
       ("url", RawValue.str "u")]),
   ("width", RawValue.int 500), ("height", RawValue.int 400),
   ("url", RawValue.str "u")]

/-- The raw envelope of the spec scenario: status 404, msg Not Found,
empty response dict. -/
def c9Envelope404 : RawValue :=
  RawValue.map
    [("meta", RawValue.map
        [("status", RawValue.int 404), ("msg", RawValue.str "Not Found")]),
     ("response", RawValue.map [])]

/-- C1 (amended): when the `blog` key is present, `Post.__new__`
dispatches by the `POST_CLASSES` table: every raw mapping whose `type`
value is one of the seven table keys photo, quote, link, chat, audio,
video, answer selects the corresponding Legacy*Post class.  The claimed
eighth value text has no table entry; see the counterexample. -/
theorem c1_post_dispatch_follows_table (kw : RawMap) (s : String) (c : PostClass)
    (hb : hasKey kw "blog" = true)
    (ht : rawLookup kw "type" = some (RawValue.str s))
    (hc : POST_CLASSES s = some c) :
    postNewStep kw = Except.ok c := by
  simp [postNewStep, hb, ht, hc]

/-- Witness for C1 at the quote entry of the table, on a concrete raw
mapping with `blog` present. -/
theorem c1_post_dispatch_follows_table_witness :
    hasKey [("type", RawValue.str "quote"), ("blog", RawValue.map [])] "blog" = true ∧
    postNewStep [("type", RawValue.str "quote"), ("blog", RawValue.map [])] =
      Except.ok PostClass.legacyQuotePost :=
  ⟨rfl, c1_post_dispatch_follows_table _ "quote" PostClass.legacyQuotePost rfl rfl rfl⟩

/-- Counterexample for C1 as stated: the Post discriminator table has no
text entry, so decoding a raw mapping with `type` text and `blog`
present raises KeyError instead of yielding the LegacyTextPost shape. -/
theorem c1_text_unmapped_cex :
    POST_CLASSES "text" = none ∧
    postNewStep [("type", RawValue.str "text"), ("blog", RawValue.map [])] =
      Except.error (DecodeErr.keyError (RawValue.str "text")) ∧
    postNewStep [("type", RawValue.str "text"), ("blog", RawValue.map [])] ≠
      Except.ok PostClass.legacyTextPost :=
  ⟨rfl, rfl, by nofun⟩

/-- C2: for every raw mapping with `blog_name` present and `blog`
absent, `Post.__new__` selects `DashboardPost`, whatever the `type`
value is, because the structural test precedes the table lookup. -/
theorem c2_blog_name_without_blog_selects_dashboard (kw : RawMap)
    (h1 : hasKey kw "blog_name" = true) (h2 : hasKey kw "blog" = false) :
    postNewStep kw = Except.ok PostClass.dashboardPost := by
  simp [postNewStep, h1, h2]

/-- Witness for C2 on a concrete raw mapping whose `type` quote matches
a Legacy*Post table entry, yet DashboardPost is selected. -/
theorem c2_blog_name_without_blog_selects_dashboard_witness :
    postNewStep [("blog_name", RawValue.str "x"), ("type", RawValue.str "quote")] =
      Except.ok PostClass.dashboardPost ∧
    POST_CLASSES "quote" = some PostClass.legacyQuotePost :=
  ⟨c2_blog_name_without_blog_selects_dashboard _ rfl rfl, rfl⟩

/-- C3 is refuted by the code: construction never reaches a result.
Each concrete class of the `Post` and `ContentBlock` families inherits
the dispatching `__new__` of its base, and that body calls a full
constructor with unchanged keyword arguments, so the dispatch re-enters
itself forever.  At the end-to-end quote mapping of the spec and at a
minimal text content block, no amount of fuel makes the constructor
return: recursion is unbounded, not bounded by schema nesting depth. -/
theorem c3_construction_never_returns :
    (∀ n : Nat, postNewFuel n c3QuoteKw = none) ∧
    (∀ n : Nat, contentNewFuel n c3TextBlockKw = none) := by
  constructor
  · intro n
    induction n with
    | zero => rfl
    | succ n ih => exact ih
  · intro n
    induction n with
    | zero => rfl
    | succ n ih => exact ih

/-- C4: `ContentBlock.__new__` treats every string `type` value outside
its table as a generic mime type and selects the `ImageBlock` fallback,
not an error. -/
theorem c4_unmapped_content_type_selects_image_fallback (kw : RawMap) (s : String)
    (ht : rawLookup kw "type" = some (RawValue.str s))
    (hu : CONTENT_CLASSES s = none) :
    contentNewStep kw = Except.ok ContentClass.imageBlock := by
  simp [contentNewStep, ht, hu]

/-- Witness for C4 at a future mime type string. -/
theorem c4_unmapped_content_type_selects_image_fallback_witness :
    CONTENT_CLASSES "some-future-mime" = none ∧
    contentNewStep [("type", RawValue.str "some-future-mime"),
                    ("media", RawValue.list [])] =
      Except.ok ContentClass.imageBlock :=
  ⟨rfl, c4_unmapped_content_type_selects_image_fallback _ "some-future-mime" rfl rfl⟩

/-- C5: an `Attribution` or `LayoutBlock` raw mapping whose `type` value
is outside the family table produces a KeyError carrying that value —
the embedding of the raised lookup failure — and never any default
shape, since neither dispatcher has a fallback branch. -/
theorem c5_attribution_layout_unmapped_type_is_error
    (kw1 kw2 : RawMap) (s1 s2 : String)
    (h1 : rawLookup kw1 "type" = some (RawValue.str s1))
    (hu1 : ATTRIBUTION_CLASSES s1 = none)
    (h2 : rawLookup kw2 "type" = some (RawValue.str s2))
    (hu2 : LAYOUT_CLASSES s2 = none) :
    attributionNewStep kw1 = Except.error (DecodeErr.keyError (RawValue.str s1)) ∧
    layoutNewStep kw2 = Except.error (DecodeErr.keyError (RawValue.str s2)) := by
  constructor
  · simp [attributionNewStep, h1, hu1]
  · simp [layoutNewStep, h2, hu2]

/-- Witness for C5 at two unmapped type values. -/
theorem c5_attribution_layout_unmapped_type_is_error_witness :
    attributionNewStep [("type", RawValue.str "gradient")] =
      Except.error (DecodeErr.keyError (RawValue.str "gradient")) ∧
    layoutNewStep [("type", RawValue.str "carousel")] =
      Except.error (DecodeErr.keyError (RawValue.str "carousel")) :=
  c5_attribution_layout_unmapped_type_is_error
    [("type", RawValue.str "gradient")] [("type", RawValue.str "carousel")]
    "gradient" "carousel" rfl rfl rfl rfl

/-- C6 is refuted by the code: on `LegacyQuotePost` the decorator
`@dataclass` regenerates `__eq__` field-wise in the subclass dict,
shadowing the id-based `Post.__eq__`, and sets `__hash__` to None.  Two
quote posts with equal id 42 but different tags, state and text are
equal under the hand-written `Post.__eq__` yet unequal under the
effective dataclass `__eq__`, and the refinement has no hash function
at all. -/
theorem c6_dataclass_eq_defeats_id_identity :
    c6QuoteA.id = c6QuoteB.id ∧
    postEq c6QuoteA c6QuoteB = true ∧
    legacyQuotePostEq c6QuoteA c6QuoteB = false ∧
    legacyQuotePostHash = none :=
  ⟨rfl, rfl, by decide, rfl⟩

/-- C7 (amended): nested references are fully decoded exactly where the
effective `__post_init__` decodes them — the avatar of every decoded
BrokenBlog and the original_size of every decoded VerbosePhoto are the
decoded values of their nested raw mappings — but a subclass that
overrides `__post_init__` without invoking the base version keeps the
base-decoded fields raw: every decoded VerbosePhoto stores the
`alt_sizes` raw value exactly as passed, undecoded. -/
theorem c7_decoding_dropped_by_override :
    (∀ (kw : RawMap) (r : BrokenBlog) (akw : RawMap),
      brokenBlogInit kw = Except.ok r →
      rawLookup kw "avatar" = some (RawValue.map akw) →
      avatarInit akw = Except.ok r.avatar) ∧
    (∀ (kw : RawMap) (r : VerbosePhoto) (cap alts : RawValue) (okw : RawMap)
        (w h u : RawValue),
      rawLookup kw "caption" = some cap →
      rawLookup kw "alt_sizes" = some alts →
      rawLookup kw "original_size" = some (RawValue.map okw) →
      rawLookup kw "width" = some w →
      rawLookup kw "height" = some h →
      rawLookup kw "url" = some u →
      verbosePhotoInit kw = Except.ok r →
      imageSizeInit okw = Except.ok r.original_size ∧ r.alt_sizes = alts) := by
  constructor
  · intro kw r akw h1 h2
    by_cases hk : keysAllowed kw ["name", "avatar"] = true
    · cases hn : rawLookup kw "name" with
      | none => simp [brokenBlogInit, hk, hn] at h1
      | some nm =>
        cases ha : avatarInit akw with
        | error e => simp [brokenBlogInit, hk, hn, h2, ha] at h1
        | ok av =>
          simp [brokenBlogInit, hk, hn, h2, ha] at h1
          rw [← h1]
    · simp [brokenBlogInit, hk] at h1
  · intro kw r cap alts okw w h u hc hal ho hw hh hu h1
    by_cases hk : keysAllowed kw
        ["caption", "alt_sizes", "original_size", "width", "height", "url"] = true
    · cases hi : imageSizeInit okw with
      | error e => simp [verbosePhotoInit, hk, hc, hal, ho, hw, hh, hu, hi] at h1
      | ok osz =>
        simp [verbosePhotoInit, hk, hc, hal, ho, hw, hh, hu, hi] at h1
        rw [← h1]
        exact ⟨rfl, rfl⟩
    · simp [verbosePhotoInit, hk] at h1

/-- Witness for C7 at a concrete BrokenBlog mapping and the concrete
VerbosePhoto mapping. -/
theorem c7_decoding_dropped_by_override_witness :
    avatarInit [("avatar_url", RawValue.str "a")] =
      Except.ok ⟨RawValue.str "a"⟩ ∧
    imageSizeInit [("width", RawValue.int 500), ("height", RawValue.int 400),
                   ("url", RawValue.str "u")] =
      Except.ok ⟨RawValue.int 500, RawValue.int 400, RawValue.str "u"⟩ :=
  ⟨c7_decoding_dropped_by_override.1
      [("name", RawValue.str "n"),
       ("avatar", RawValue.map [("avatar_url", RawValue.str "a")])]
      ⟨RawValue.str "n", ⟨RawValue.str "a"⟩⟩
      [("avatar_url", RawValue.str "a")] rfl rfl,
   (c7_decoding_dropped_by_override.2 c7PhotoKw
      ⟨RawValue.str "c", c7AltSizesRaw,
       ⟨RawValue.int 500, RawValue.int 400, RawValue.str "u"⟩,
       RawValue.int 500, RawValue.int 400, RawValue.str "u"⟩
      (RawValue.str "c") c7AltSizesRaw
      [("width", RawValue.int 500), ("height", RawValue.int 400),
       ("url", RawValue.str "u")]
      (RawValue.int 500) (RawValue.int 400) (RawValue.str "u")
      rfl rfl rfl rfl rfl rfl rfl).1⟩

/-- Counterexample for C7 as stated: a VerbosePhoto — directly
constructible, since no class in its hierarchy overrides `__new__` —
decodes successfully, yet the decoded value holds the raw mappings
passed for alt_sizes unchanged, because the VerbosePhoto
`__post_init__` overrides the Photo one that would have decoded them.
A raw mapping survives inside a successfully decoded value. -/
theorem c7_verbose_photo_alt_sizes_raw_cex :
    verbosePhotoInit c7PhotoKw =
      Except.ok ⟨RawValue.str "c", c7AltSizesRaw,
                 ⟨RawValue.int 500, RawValue.int 400, RawValue.str "u"⟩,
                 RawValue.int 500, RawValue.int 400, RawValue.str "u"⟩ ∧
    listHasRawMapping c7AltSizesRaw = true :=
  ⟨rfl, rfl⟩

/-- C8 (amended): `ContentFormat.__new__` resolves a present `type` by
the `FORMAT_CLASSES` table, whose entries are link to LinkFormat, color
to ColorFormat and content to ContentFormat.  The table has no mention
entry; see the counterexample. -/
theorem c8_format_dispatch_follows_table (kw : RawMap) (s : String) (c : FormatClass)
    (ht : rawLookup kw "type" = some (RawValue.str s))
    (hc : FORMAT_CLASSES s = some c) :
    formatNewStep kw = Except.ok c := by
  simp [formatNewStep, ht, hc]

/-- Witness for C8 at the link entry of the table. -/
theorem c8_format_dispatch_follows_table_witness :
    FORMAT_CLASSES "link" = some FormatClass.linkFormat ∧
    formatNewStep [("type", RawValue.str "link"), ("start", RawValue.int 0),
                   ("end", RawValue.int 1), ("url", RawValue.str "u")] =
      Except.ok FormatClass.linkFormat :=
  ⟨rfl, c8_format_dispatch_follows_table _ "link" FormatClass.linkFormat rfl rfl⟩

/-- Counterexample for C8 as stated: `FORMAT_CLASSES` has no mention
entry, so resolving a mention format raw mapping with all its required
fields present raises KeyError instead of yielding MentionFormat. -/
theorem c8_mention_unmapped_cex :
    FORMAT_CLASSES "mention" = none ∧
    formatNewStep [("type", RawValue.str "mention"), ("start", RawValue.int 0),
                   ("end", RawValue.int 1), ("blog", RawValue.map [])] =
      Except.error (DecodeErr.keyError (RawValue.str "mention")) ∧
    formatNewStep [("type", RawValue.str "mention"), ("start", RawValue.int 0),
                   ("end", RawValue.int 1), ("blog", RawValue.map [])] ≠
      Except.ok FormatClass.mentionFormat :=
  ⟨rfl, rfl, by nofun⟩

/-- C9: `json_parse` returns the extracted response body when the meta
status is 200, and for any other status returns a TumblrError value
carrying that status, the msg, the raw response dict, and the errors
field at its None default — no decoded value. -/
theorem c9_envelope_status_dispatch (env metaV st r : RawValue)
    (hm : getItem env "meta" = Except.ok metaV)
    (hs : getItem metaV "status" = Except.ok st)
    (hr : getItem env "response" = Except.ok r) :
    (isStatus200 st = true →
      jsonParse (some env) = Except.ok (TumblrResponse.success r)) ∧
    (∀ m : RawValue, isStatus200 st = false →
      getItem metaV "msg" = Except.ok m →
      jsonParse (some env) =
        Except.ok (TumblrResponse.failure ⟨st, m, some r, none⟩)) := by
  constructor
  · intro h200
    simp [jsonParse, hm, hs, hr, h200]
  · intro m h200 hmsg
    simp [jsonParse, hm, hs, hr, hmsg, h200]

/-- Witness for C9 at the spec scenario envelope with status 404. -/
theorem c9_envelope_status_dispatch_witness :
    jsonParse (some c9Envelope404) =
      Except.ok (TumblrResponse.failure
        ⟨RawValue.int 404, RawValue.str "Not Found",
         some (RawValue.map []), none⟩) :=
  (c9_envelope_status_dispatch c9Envelope404
      (RawValue.map [("status", RawValue.int 404), ("msg", RawValue.str "Not Found")])
      (RawValue.int 404) (RawValue.map []) rfl rfl rfl).2
    (RawValue.str "Not Found") rfl rfl

/-- C10: when the body cannot be parsed as JSON, `json_parse` swallows
the ValueError, substitutes the hard-coded payload, and returns a
TumblrError with status 500, msg Server Error and the fixed error
response dict. -/
theorem c10_malformed_json_yields_server_error :
    jsonParse none =
      Except.ok (TumblrResponse.failure
        ⟨RawValue.int 500, RawValue.str "Server Error",
         some (RawValue.map
           [("error", RawValue.str "Malformed JSON or HTML was returned.")]),
         none⟩) := rfl

end Pytumblr
